import Mathlib

set_option maxRecDepth 2048

/-!
Shallow embedding of the deterministic EVSE state machine from
`evse_manager/app/state_machine.py` and the relevant part of the
configuration loader from `evse_manager/app/controller_config.py`.
Python floats are modelled as rationals, optional sensor readings as
`Option`, and the mutation of `self.state` inside a tick as explicit
state passing in source order.
-/

namespace Evse

/-- The allowed amperage steps, `EVSE_STEPS_AMPS` in the source. -/
def EVSE_STEPS_AMPS : List ℚ := [0, 6, 8, 10, 13, 16, 20, 24]

/-- List indexing `EVSE_STEPS_AMPS[i]`; out-of-range reads default to 0
(the source only indexes in range). -/
def stepAmps (i : Nat) : ℚ := EVSE_STEPS_AMPS.getD i 0

/-- FSM macro states, `ModeState` in the source. -/
inductive ModeState where
  | OFF
  | MAIN_READY
  | MAIN_COOLDOWN
  | PROBE_READY
  | PROBE_COOLDOWN
  deriving DecidableEq, Repr

/-- Immutable constants shaping the FSM, `ControllerConfig` in the source,
with the dataclass defaults. -/
structure ControllerConfig where
  line_voltage_v : ℚ := 230
  soc_main_max : ℚ := 95
  soc_conservative_below : ℚ := 94
  small_discharge_margin_w : ℚ := 200
  conservative_charge_target_w : ℚ := 100
  probe_max_discharge_w : ℚ := 1000
  inverter_limit_w : ℚ := 8000
  inverter_margin_w : ℚ := 500
  cooldown_s : ℚ := 5
  waiting_timeout_s : ℚ := 60
  sensor_latency_s : ℚ := 25
  deriving DecidableEq, Repr

/-- Derived property `safe_inverter_max_w` of the config. -/
def ControllerConfig.safe_inverter_max_w (c : ControllerConfig) : ℚ :=
  c.inverter_limit_w - c.inverter_margin_w

/-- The default `ControllerConfig()`. -/
def defaultConfig : ControllerConfig := {}

/-- Internal FSM state, `ControllerState` in the source. -/
structure ControllerState where
  mode_state : ModeState := ModeState.OFF
  evse_step_index : Nat := 0
  last_change_ts_s : ℚ := 0
  waiting_since_ts_s : Option ℚ := none
  pending_effect_ts_s : Option ℚ := none
  deriving DecidableEq, Repr

/-- Snapshot of upstream entity values, `Inputs` in the source. -/
structure Inputs where
  batt_soc_percent : Option ℚ
  batt_power_w : Option ℚ
  inverter_power_w : Option ℚ
  pv_power_w : Option ℚ
  charger_status : String
  charger_switch_on : Bool
  charger_current_a : Option ℚ
  auto_enabled : Bool
  now_s : ℚ
  deriving DecidableEq, Repr

/-- Python `str.lower()` restricted to the ASCII range used by the statuses. -/
def pyLower (s : String) : String := s.map Char.toLower

/-- Python `abs` on a float, in executable form. -/
def pyAbs (q : ℚ) : ℚ := if q < 0 then -q else q

/-- Python two-argument `max` on floats, in executable form. -/
def pyMax (a b : ℚ) : ℚ := if a < b then b else a

/-- The module-level helper `_ev_plugged`. -/
def ev_plugged (status : String) : Bool := decide (pyLower status ≠ ("available"))

/-- Derived helpers computed per tick, `DerivedValues` in the source. -/
structure DerivedValues where
  region : String
  ev_plugged : Bool
  excess_w : Option ℚ
  inverter_over_limit : Bool
  cooldown_active : Bool
  time_since_last_change : ℚ
  waiting_timed_out : Bool
  effect_ready : Bool
  deriving DecidableEq, Repr

/-- A single FSM action outcome, `Decision` in the source; the metadata
dict is modelled as an association list. -/
structure Decision where
  new_state : ControllerState
  switch_command : Option Bool
  current_command_amps : Option ℚ
  reason : String
  metadata : List (String × ℚ)
  deriving DecidableEq, Repr

/-- `DeterministicStateMachine._region_for_soc`. -/
def region_for_soc (cfg : ControllerConfig) (soc : Option ℚ) : String :=
  match soc with
  | none => ("MAIN")
  | some s => if cfg.soc_main_max ≤ s then ("PROBE") else ("MAIN")

/-- The `effect_ready` computation inside `_derive`. -/
def effect_ready_now (cfg : ControllerConfig) (st : ControllerState) (inp : Inputs) : Bool :=
  match st.pending_effect_ts_s with
  | none => true
  | some t => decide (cfg.sensor_latency_s ≤ inp.now_s - t)

/-- The pure value part of `DeterministicStateMachine._derive`. -/
def deriveVals (cfg : ControllerConfig) (st : ControllerState) (inp : Inputs) : DerivedValues :=
  let target_region := region_for_soc cfg inp.batt_soc_percent
  let time_since := pyMax 0 (inp.now_s - st.last_change_ts_s)
  let excess : Option ℚ :=
    if target_region = ("MAIN") then
      match inp.pv_power_w, inp.inverter_power_w with
      | some pv, some iw => some (pv - iw)
      | _, _ =>
        match inp.batt_power_w with
        | some bp => some (-bp)
        | none => none
    else none
  { region := target_region
    ev_plugged := ev_plugged inp.charger_status
    excess_w := excess
    inverter_over_limit :=
      match inp.inverter_power_w with
      | none => false
      | some w => decide (cfg.safe_inverter_max_w < w)
    cooldown_active := decide (time_since < cfg.cooldown_s)
    time_since_last_change := time_since
    waiting_timed_out :=
      match st.waiting_since_ts_s with
      | none => false
      | some t => decide (cfg.waiting_timeout_s < inp.now_s - t)
    effect_ready := effect_ready_now cfg st inp }

/-- The state mutation performed by `_derive` (clearing an elapsed
`pending_effect_ts_s`). -/
def deriveState (cfg : ControllerConfig) (st : ControllerState) (inp : Inputs) : ControllerState :=
  match st.pending_effect_ts_s with
  | none => st
  | some t =>
    if cfg.sensor_latency_s ≤ inp.now_s - t then { st with pending_effect_ts_s := none } else st

/-- The closest-step search loop shared by `_detect_external_changes` and
`sync_with_charger`: Python tracks `(min_diff, best_index)` starting from
`(inf, 0)` and updates on strictly smaller difference; `none` stands for
the initial infinity. -/
def best_step_fold (cur : ℚ) (pairs : List (Nat × ℚ)) : Option ℚ × Nat :=
  pairs.foldl
    (fun acc p =>
      let diff := pyAbs (p.2 - cur)
      match acc.1 with
      | none => (some diff, p.1)
      | some m => if diff < m then (some diff, p.1) else acc)
    (none, 0)

/-- `DeterministicStateMachine._detect_external_changes`. -/
def detect_external_changes (cfg : ControllerConfig) (st : ControllerState) (inp : Inputs) :
    ControllerState :=
  match inp.charger_current_a with
  | none => st
  | some cur =>
    if cur < 1 then st
    else
      let expected := stepAmps st.evse_step_index
      let diff0 := pyAbs (expected - cur)
      let diff := if st.evse_step_index = 0 ∧ 1 ≤ cur then cur else diff0
      if 2 < diff then
        match best_step_fold cur EVSE_STEPS_AMPS.enum with
        | (some m, best_index) =>
          if m ≤ 3 then
            let region := region_for_soc cfg inp.batt_soc_percent
            let mode :=
              if best_index = 0 then ModeState.OFF
              else if region = ("MAIN") then ModeState.MAIN_READY else ModeState.PROBE_READY
            { st with
                evse_step_index := best_index
                mode_state := mode
                last_change_ts_s := inp.now_s
                pending_effect_ts_s := none }
          else st
        | (none, _) => st
      else st

/-- `DeterministicStateMachine.sync_with_charger` (state-returning form). -/
def sync_with_charger (cfg : ControllerConfig) (st : ControllerState) (inp : Inputs) :
    ControllerState :=
  if st.evse_step_index ≠ 0 then st
  else if ¬ (pyLower inp.charger_status = ("charging") ∨ pyLower inp.charger_status = ("connected"))
  then st
  else
    match inp.charger_current_a with
    | none => st
    | some cur =>
      if cur < 1 then st
      else
        match best_step_fold cur (EVSE_STEPS_AMPS.enum.filter (fun p => p.1 ≠ 0)) with
        | (some m, best_index) =>
          if 0 < best_index ∧ m ≤ 3 then
            let region := region_for_soc cfg inp.batt_soc_percent
            { mode_state :=
                if region = ("MAIN") then ModeState.MAIN_READY else ModeState.PROBE_READY
              evse_step_index := best_index
              last_change_ts_s := inp.now_s
              waiting_since_ts_s := none
              pending_effect_ts_s := none }
          else st
        | (none, _) => st

/-- `DeterministicStateMachine._desired_mode_state`. -/
def desired_mode_state (st : ControllerState) (region : String) (cooldown_active : Bool) :
    ModeState :=
  if st.evse_step_index = 0 then ModeState.OFF
  else if region = ("MAIN") then
    (if cooldown_active then ModeState.MAIN_COOLDOWN else ModeState.MAIN_READY)
  else (if cooldown_active then ModeState.PROBE_COOLDOWN else ModeState.PROBE_READY)

/-- `DeterministicStateMachine._sync_mode_state`. -/
def sync_mode_state (st : ControllerState) (region : String) (cooldown_active : Bool) :
    ControllerState :=
  let desired := desired_mode_state st region cooldown_active
  if st.mode_state ≠ desired then { st with mode_state := desired } else st

/-- `DeterministicStateMachine._update_waiting_timer`. -/
def update_waiting_timer (st : ControllerState) (inp : Inputs) : ControllerState :=
  if pyLower inp.charger_status = ("waiting") then
    match st.waiting_since_ts_s with
    | none => { st with waiting_since_ts_s := some inp.now_s }
    | some _ => st
  else
    match st.waiting_since_ts_s with
    | some _ => { st with waiting_since_ts_s := none }
    | none => st

/-- `DeterministicStateMachine._force_off`. -/
def force_off (st : ControllerState) (inp : Inputs) (reason : String) (latch_wait : Bool) :
    Decision :=
  let waiting_ts := if latch_wait then st.waiting_since_ts_s else none
  let soc_value := inp.batt_soc_percent.getD 0
  { new_state :=
      { mode_state := ModeState.OFF
        evse_step_index := 0
        last_change_ts_s := inp.now_s
        waiting_since_ts_s := waiting_ts
        pending_effect_ts_s := none }
    switch_command := some false
    current_command_amps := none
    reason := reason
    metadata := [(("soc"), soc_value)] }

/-- `DeterministicStateMachine._global_rules`. -/
def global_rules (st : ControllerState) (inp : Inputs) (d : DerivedValues) : Option Decision :=
  if pyLower inp.charger_status = ("fault") then
    some (force_off st inp ("fault_state") true)
  else if d.waiting_timed_out then
    some (force_off st inp ("waiting_timeout") true)
  else if ¬ d.ev_plugged ∨ ¬ inp.auto_enabled then
    some (force_off st inp (if ¬ d.ev_plugged then ("ev_unplugged") else ("auto_disabled")) false)
  else none

/-- `DeterministicStateMachine._step_up_power`. -/
def step_up_power (cfg : ControllerConfig) (index : Nat) : ℚ :=
  (stepAmps (index + 1) - stepAmps index) * cfg.line_voltage_v

/-- `DeterministicStateMachine._inverter_safe`. -/
def inverter_safe (cfg : ControllerConfig) (inp : Inputs) (index : Nat) : Bool :=
  match inp.inverter_power_w with
  | none => true
  | some w => decide (w + step_up_power cfg index ≤ cfg.safe_inverter_max_w)

/-- `DeterministicStateMachine._set_step`; the Python clamp
`max(0, min(new_index, len - 1))` becomes `min new_index 7` on `Nat`. -/
def set_step (cfg : ControllerConfig) (st : ControllerState) (inp : Inputs) (new_index0 : Nat)
    (reason : String) : Decision :=
  let new_index := min new_index0 7
  let old_index := st.evse_step_index
  let region := region_for_soc cfg inp.batt_soc_percent
  let target_mode :=
    if new_index = 0 then ModeState.OFF
    else if region = ("MAIN") then ModeState.MAIN_COOLDOWN else ModeState.PROBE_COOLDOWN
  let pending :=
    if old_index < new_index then some inp.now_s
    else if new_index < old_index ∨ new_index = 0 then none
    else st.pending_effect_ts_s
  let target_current : Option ℚ := if 0 < new_index then some (stepAmps new_index) else none
  { new_state :=
      { mode_state := target_mode
        evse_step_index := new_index
        last_change_ts_s := inp.now_s
        waiting_since_ts_s := st.waiting_since_ts_s
        pending_effect_ts_s := pending }
    switch_command := if new_index = 0 then some false else some true
    current_command_amps := target_current
    reason := reason
    metadata :=
      match target_current with
      | some t => [(("index"), (new_index : ℚ)), (("target_amps"), t)]
      | none => [(("index"), (new_index : ℚ))] }

/-- `DeterministicStateMachine._main_start_logic`. -/
def main_start_logic (cfg : ControllerConfig) (st : ControllerState) (inp : Inputs)
    (d : DerivedValues) : Option Decision :=
  match d.excess_w with
  | none => none
  | some ex =>
    if ex < stepAmps 1 * cfg.line_voltage_v then none
    else if ¬ inverter_safe cfg inp 0 then none
    else some (set_step cfg st inp 1 ("main_start"))

/-- `DeterministicStateMachine._probe_start_logic`. -/
def probe_start_logic (cfg : ControllerConfig) (st : ControllerState) (inp : Inputs) :
    Option Decision :=
  match inp.batt_power_w with
  | none => none
  | some bp =>
    if 0 < bp then none
    else if ¬ inverter_safe cfg inp 0 then none
    else some (set_step cfg st inp 1 ("probe_start"))

/-- `DeterministicStateMachine._inverter_emergency`. -/
def inverter_emergency (cfg : ControllerConfig) (st : ControllerState) (inp : Inputs)
    (d : DerivedValues) : Option Decision :=
  if st.evse_step_index = 0 then none
  else if ¬ d.inverter_over_limit then none
  else if st.evse_step_index = 1 then some (set_step cfg st inp 0 ("inverter_drop"))
  else some (set_step cfg st inp (st.evse_step_index - 1) ("inverter_step_down"))

/-- `DeterministicStateMachine._is_conservative_mode`. -/
def is_conservative_mode (cfg : ControllerConfig) (soc : Option ℚ) : Bool :=
  match soc with
  | none => false
  | some s => decide (s < cfg.soc_conservative_below)

/-- `DeterministicStateMachine._main_ready_logic`; the early-return chain
becomes nested alternatives in source order. -/
def main_ready_logic (cfg : ControllerConfig) (st : ControllerState) (inp : Inputs)
    (d : DerivedValues) : Option Decision :=
  let conservative := is_conservative_mode cfg inp.batt_soc_percent
  let fallback : Option Decision :=
    if conservative ∧ 0 < st.evse_step_index then
      match d.excess_w, inp.batt_power_w with
      | none, some bp =>
        if 50 < bp then
          some (set_step cfg st inp (st.evse_step_index - 1) ("main_conservative_batt_discharge"))
        else none
      | _, _ => none
    else none
  match fallback with
  | some dec => some dec
  | none =>
    if 0 < st.evse_step_index then
      match d.excess_w with
      | some ex =>
        let up : Option Decision :=
          if st.evse_step_index < 7 ∧ d.effect_ready
              ∧ step_up_power cfg st.evse_step_index ≤ ex
              ∧ inverter_safe cfg inp st.evse_step_index then
            some (set_step cfg st inp (st.evse_step_index + 1) ("main_step_up"))
          else none
        match up with
        | some dec => some dec
        | none =>
          if conservative then
            if cfg.conservative_charge_target_w ≤ ex then none
            else some (set_step cfg st inp (st.evse_step_index - 1) ("main_conservative_step_down"))
          else
            if -cfg.small_discharge_margin_w ≤ ex then none
            else some (set_step cfg st inp (st.evse_step_index - 1) ("main_step_down"))
      | none => none
    else none

/-- `DeterministicStateMachine._probe_ready_logic`. -/
def probe_ready_logic (cfg : ControllerConfig) (st : ControllerState) (inp : Inputs)
    (d : DerivedValues) : Option Decision :=
  match inp.batt_power_w with
  | none => none
  | some bp =>
    if st.evse_step_index = 0 then none
    else if bp ≤ 0 then
      if st.evse_step_index < 7 ∧ d.effect_ready ∧ inverter_safe cfg inp st.evse_step_index then
        some (set_step cfg st inp (st.evse_step_index + 1) ("probe_step_up"))
      else none
    else if bp ≤ cfg.probe_max_discharge_w then none
    else some (set_step cfg st inp (st.evse_step_index - 1) ("probe_step_down"))

/-- The decision part of `DeterministicStateMachine._evaluate_rules`, taking
the state after the waiting-timer maintenance. -/
def rules_decision (cfg : ControllerConfig) (stw : ControllerState) (inp : Inputs)
    (d : DerivedValues) : Option Decision :=
  match global_rules stw inp d with
  | some dec => some dec
  | none =>
    if stw.mode_state = ModeState.OFF then
      if d.cooldown_active then none
      else if d.region = ("MAIN") then main_start_logic cfg stw inp d
      else probe_start_logic cfg stw inp
    else if stw.mode_state = ModeState.MAIN_COOLDOWN ∨ stw.mode_state = ModeState.PROBE_COOLDOWN
    then none
    else
      match inverter_emergency cfg stw inp d with
      | some dec => some dec
      | none =>
        if d.region = ("MAIN") then main_ready_logic cfg stw inp d
        else probe_ready_logic cfg stw inp d

/-- `DeterministicStateMachine._evaluate_rules`; the second component is the
state after the waiting-timer maintenance (adopted when no decision is
returned). -/
def evaluate_rules (cfg : ControllerConfig) (st : ControllerState) (inp : Inputs)
    (d : DerivedValues) : Option Decision × ControllerState :=
  let stw := update_waiting_timer st inp
  (rules_decision cfg stw inp d, stw)

/-- Result of one tick: the optional decision, the derived view, and the
state the machine holds afterwards. -/
structure TickResult where
  decision : Option Decision
  derived : DerivedValues
  state : ControllerState
  deriving DecidableEq, Repr

/-- `DeterministicStateMachine.tick`. -/
def tick (cfg : ControllerConfig) (st : ControllerState) (inp : Inputs) : TickResult :=
  let d := deriveVals cfg st inp
  let st1 := deriveState cfg st inp
  let st2 := detect_external_changes cfg st1 inp
  let st3 := sync_mode_state st2 d.region d.cooldown_active
  let r := evaluate_rules cfg st3 inp d
  { decision := r.1
    derived := d
    state :=
      match r.1 with
      | some dec => dec.new_state
      | none => r.2 }

/-- The state the rules are evaluated against mid-tick: after the pending
clear in `_derive`, external-change detection and mode-state
synchronization. -/
def preState (cfg : ControllerConfig) (st : ControllerState) (inp : Inputs) : ControllerState :=
  sync_mode_state (detect_external_changes cfg (deriveState cfg st inp) inp)
    (deriveVals cfg st inp).region (deriveVals cfg st inp).cooldown_active

/-- `preState` plus the waiting-timer maintenance: the exact state
`_evaluate_rules` computes its decision from. -/
def evalState (cfg : ControllerConfig) (st : ControllerState) (inp : Inputs) : ControllerState :=
  update_waiting_timer (preState cfg st inp) inp

/-- The step index held when the rules run (the prior index unless the
external-change detector resynced it this tick). -/
def originIndex (cfg : ControllerConfig) (st : ControllerState) (inp : Inputs) : Nat :=
  (evalState cfg st inp).evse_step_index

/-- The freshly constructed `ControllerState()` (all defaults). -/
def initState : ControllerState := {}

/-- Concrete inputs for the C7 witness: benign readings, charger charging. -/
def c7inp : Inputs :=
  { batt_soc_percent := none
    batt_power_w := none
    inverter_power_w := none
    pv_power_w := none
    charger_status := ("charging")
    charger_switch_on := true
    charger_current_a := none
    auto_enabled := true
    now_s := 10 }

/-- Concrete inputs for the C10 witness: battery charging at 1500 W, PV and
inverter sensors absent. -/
def c10inp : Inputs :=
  { batt_soc_percent := none
    batt_power_w := some (-1500)
    inverter_power_w := none
    pv_power_w := none
    charger_status := ("charging")
    charger_switch_on := true
    charger_current_a := none
    auto_enabled := true
    now_s := 10 }

/-- C1 counterexample state: charging at step 2, cooldown still running. -/
def c1st : ControllerState :=
  { mode_state := ModeState.MAIN_COOLDOWN
    evse_step_index := 2
    last_change_ts_s := 100
    waiting_since_ts_s := none
    pending_effect_ts_s := none }

/-- C1 counterexample inputs: inverter over the safe limit, no global gate,
two seconds after the last step change. -/
def c1inp : Inputs :=
  { batt_soc_percent := none
    batt_power_w := none
    inverter_power_w := some 8000
    pv_power_w := some 0
    charger_status := ("charging")
    charger_switch_on := true
    charger_current_a := none
    auto_enabled := true
    now_s := 102 }

/-- C1 witness state: charging at step 3, cooldown elapsed. -/
def c1wst : ControllerState :=
  { mode_state := ModeState.MAIN_READY
    evse_step_index := 3
    last_change_ts_s := 100
    waiting_since_ts_s := none
    pending_effect_ts_s := none }

/-- C1 witness inputs: inverter over the safe limit, cooldown elapsed. -/
def c1winp : Inputs :=
  { batt_soc_percent := none
    batt_power_w := none
    inverter_power_w := some 8000
    pv_power_w := some 0
    charger_status := ("charging")
    charger_switch_on := true
    charger_current_a := none
    auto_enabled := true
    now_s := 110 }

/-- C4 failing state: vehicle-waiting timer latched at t = 1000, charging. -/
def c4st : ControllerState :=
  { mode_state := ModeState.MAIN_READY
    evse_step_index := 3
    last_change_ts_s := 950
    waiting_since_ts_s := some 1000
    pending_effect_ts_s := none }

/-- C4 failing inputs: the charger reports a fault at t = 1010. -/
def c4inp : Inputs :=
  { batt_soc_percent := none
    batt_power_w := none
    inverter_power_w := none
    pv_power_w := none
    charger_status := ("fault")
    charger_switch_on := true
    charger_current_a := none
    auto_enabled := true
    now_s := 1010 }

/-- C5 state: charging at step 2, conservative SOC, cooldown elapsed. -/
def c5st : ControllerState :=
  { mode_state := ModeState.MAIN_READY
    evse_step_index := 2
    last_change_ts_s := 100
    waiting_since_ts_s := none
    pending_effect_ts_s := none }

/-- C5 counterexample inputs: SOC 90 (conservative), explicit excess 500 W
(above both the conservative target and the step-up requirement). -/
def c5inp : Inputs :=
  { batt_soc_percent := some 90
    batt_power_w := none
    inverter_power_w := some 2500
    pv_power_w := some 3000
    charger_status := ("charging")
    charger_switch_on := true
    charger_current_a := none
    auto_enabled := true
    now_s := 110 }

/-- C5 witness inputs: SOC 90 (conservative), explicit excess 300 W (above
the conservative target but below the step-up requirement). -/
def c5winp : Inputs :=
  { batt_soc_percent := some 90
    batt_power_w := none
    inverter_power_w := some 2500
    pv_power_w := some 2800
    charger_status := ("charging")
    charger_switch_on := true
    charger_current_a := none
    auto_enabled := true
    now_s := 110 }

/-- C6 chain start: charging at step 1, no pending step-up. -/
def c6st0 : ControllerState :=
  { mode_state := ModeState.MAIN_READY
    evse_step_index := 1
    last_change_ts_s := 0
    waiting_since_ts_s := none
    pending_effect_ts_s := none }

/-- C6 tick-1 inputs at t = 100: large excess, step-up conditions met. -/
def c6inp1 : Inputs :=
  { batt_soc_percent := none
    batt_power_w := none
    inverter_power_w := some 1000
    pv_power_w := some 3000
    charger_status := ("charging")
    charger_switch_on := true
    charger_current_a := none
    auto_enabled := true
    now_s := 100 }

/-- C6 state after the step-up at t = 100. -/
def c6st1 : ControllerState := (tick defaultConfig c6st0 c6inp1).state

/-- C6 tick-2 inputs at t = 106: deeply negative excess forcing a step-down. -/
def c6inp2 : Inputs :=
  { batt_soc_percent := none
    batt_power_w := none
    inverter_power_w := some 1000
    pv_power_w := some 0
    charger_status := ("charging")
    charger_switch_on := true
    charger_current_a := none
    auto_enabled := true
    now_s := 106 }

/-- C6 state after the step-down at t = 106. -/
def c6st2 : ControllerState := (tick defaultConfig c6st1 c6inp2).state

/-- C6 tick-3 inputs at t = 112 (still inside the 25 s latency window of the
step-up at t = 100): large excess again. -/
def c6inp3 : Inputs :=
  { batt_soc_percent := none
    batt_power_w := none
    inverter_power_w := some 1000
    pv_power_w := some 3000
    charger_status := ("charging")
    charger_switch_on := true
    charger_current_a := none
    auto_enabled := true
    now_s := 112 }

/-- C6 witness state: step 2 with a pending step-up marked at t = 100. -/
def c6wst : ControllerState :=
  { mode_state := ModeState.MAIN_READY
    evse_step_index := 2
    last_change_ts_s := 100
    waiting_since_ts_s := none
    pending_effect_ts_s := some 100 }

/-- C6 witness inputs at t = 110: negative excess, step-down expected. -/
def c6winp : Inputs :=
  { batt_soc_percent := none
    batt_power_w := none
    inverter_power_w := some 1000
    pv_power_w := some 0
    charger_status := ("charging")
    charger_switch_on := true
    charger_current_a := none
    auto_enabled := true
    now_s := 110 }

/-- C6 witness decision: the step-down emitted from c6wst on c6winp. -/
def c6wdec : Decision :=
  { new_state :=
      { mode_state := ModeState.MAIN_COOLDOWN
        evse_step_index := 1
        last_change_ts_s := 110
        waiting_since_ts_s := none
        pending_effect_ts_s := none }
    switch_command := some true
    current_command_amps := some 6
    reason := ("main_step_down")
    metadata := [(("index"), 1), (("target_amps"), 6)] }

/-- C2 counterexample inputs: charger reports 8 A while the FSM thinks it
is OFF; inverter at 7000 W, PV at 7500 W. -/
def c2inp : Inputs :=
  { batt_soc_percent := none
    batt_power_w := none
    inverter_power_w := some 7000
    pv_power_w := some 7500
    charger_status := ("charging")
    charger_switch_on := true
    charger_current_a := some 8
    auto_enabled := true
    now_s := 50 }

/-- C2 witness state: charging at step 1, cooldown and latency elapsed. -/
def c2wst : ControllerState :=
  { mode_state := ModeState.MAIN_READY
    evse_step_index := 1
    last_change_ts_s := 100
    waiting_since_ts_s := none
    pending_effect_ts_s := none }

/-- C2 witness inputs: large excess, inverter at 2500 W. -/
def c2winp : Inputs :=
  { batt_soc_percent := none
    batt_power_w := none
    inverter_power_w := some 2500
    pv_power_w := some 8000
    charger_status := ("charging")
    charger_switch_on := true
    charger_current_a := none
    auto_enabled := true
    now_s := 130 }

/-- C2 witness decision: the step-up emitted from c2wst on c2winp. -/
def c2wdec : Decision :=
  { new_state :=
      { mode_state := ModeState.MAIN_COOLDOWN
        evse_step_index := 2
        last_change_ts_s := 130
        waiting_since_ts_s := none
        pending_effect_ts_s := some 130 }
    switch_command := some true
    current_command_amps := some 8
    reason := ("main_step_up")
    metadata := [(("index"), 2), (("target_amps"), 8)] }

/-- C3 counterexample inputs: charger reports 16 A one second after start
while the FSM is OFF (cooldown still active for the prior state). -/
def c3inp : Inputs :=
  { batt_soc_percent := none
    batt_power_w := none
    inverter_power_w := none
    pv_power_w := none
    charger_status := ("charging")
    charger_switch_on := true
    charger_current_a := some 16
    auto_enabled := true
    now_s := 1 }

/-- Regression state for the repository's own tick-level tests: the fresh
machine state used by tests/test_state_machine.py. -/
def testState0 : ControllerState := {}

/-- Regression inputs matching the make_inputs helper of
tests/test_state_machine.py (SOC 60, battery charging at 500 W). -/
def testInputs (now pv inv : ℚ) : Inputs :=
  { batt_soc_percent := some 60
    batt_power_w := some (-500)
    inverter_power_w := some inv
    pv_power_w := some pv
    charger_status := ("charging")
    charger_switch_on := true
    charger_current_a := none
    auto_enabled := true
    now_s := now }

/-- State after the cold start at t = 100 in the cooldown regression test. -/
def testState1 : ControllerState := (tick defaultConfig testState0 (testInputs 100 6000 2000)).state

/-- The `ControllerConfig(...)` construction inside
`load_runtime_config` (`controller_config.py`): option lookup is abstracted
as a partial numeric map `get` for top-level keys and `get_nested` for the
one nested fallback the loader uses; fields the loader does not pass take
the dataclass defaults. -/
def build_controller_config (get : String → Option ℚ) (get_nested : String → String → Option ℚ) :
    ControllerConfig :=
  { line_voltage_v := (get ("line_voltage_v")).getD 230
    soc_main_max := (get ("soc_main_max")).getD 95
    small_discharge_margin_w := (get ("small_discharge_margin_w")).getD 200
    probe_max_discharge_w := (get ("probe_max_discharge_w")).getD 1000
    inverter_limit_w :=
      (get ("inverter_limit_w")).getD ((get_nested ("sensors") ("inverter_max_power")).getD 8000)
    inverter_margin_w := (get ("inverter_margin_w")).getD 500
    cooldown_s := (get ("cooldown_s")).getD 5
    waiting_timeout_s := (get ("waiting_timeout_s")).getD 60 }


/-! Structural lemmas about the embedded operations. -/

theorem update_waiting_timer_mode (st : ControllerState) (inp : Inputs) :
    (update_waiting_timer st inp).mode_state = st.mode_state := by
  rcases h : st.waiting_since_ts_s with _ | t <;>
    simp only [update_waiting_timer, h] <;> split_ifs <;> rfl

theorem update_waiting_timer_index (st : ControllerState) (inp : Inputs) :
    (update_waiting_timer st inp).evse_step_index = st.evse_step_index := by
  rcases h : st.waiting_since_ts_s with _ | t <;>
    simp only [update_waiting_timer, h] <;> split_ifs <;> rfl

theorem update_waiting_timer_last (st : ControllerState) (inp : Inputs) :
    (update_waiting_timer st inp).last_change_ts_s = st.last_change_ts_s := by
  rcases h : st.waiting_since_ts_s with _ | t <;>
    simp only [update_waiting_timer, h] <;> split_ifs <;> rfl

theorem update_waiting_timer_pending (st : ControllerState) (inp : Inputs) :
    (update_waiting_timer st inp).pending_effect_ts_s = st.pending_effect_ts_s := by
  rcases h : st.waiting_since_ts_s with _ | t <;>
    simp only [update_waiting_timer, h] <;> split_ifs <;> rfl

theorem deriveState_mode (cfg : ControllerConfig) (st : ControllerState) (inp : Inputs) :
    (deriveState cfg st inp).mode_state = st.mode_state := by
  rcases h : st.pending_effect_ts_s with _ | t <;>
    simp only [deriveState, h] <;> split_ifs <;> rfl

theorem deriveState_index (cfg : ControllerConfig) (st : ControllerState) (inp : Inputs) :
    (deriveState cfg st inp).evse_step_index = st.evse_step_index := by
  rcases h : st.pending_effect_ts_s with _ | t <;>
    simp only [deriveState, h] <;> split_ifs <;> rfl

theorem deriveState_last (cfg : ControllerConfig) (st : ControllerState) (inp : Inputs) :
    (deriveState cfg st inp).last_change_ts_s = st.last_change_ts_s := by
  rcases h : st.pending_effect_ts_s with _ | t <;>
    simp only [deriveState, h] <;> split_ifs <;> rfl

theorem deriveState_waiting (cfg : ControllerConfig) (st : ControllerState) (inp : Inputs) :
    (deriveState cfg st inp).waiting_since_ts_s = st.waiting_since_ts_s := by
  rcases h : st.pending_effect_ts_s with _ | t <;>
    simp only [deriveState, h] <;> split_ifs <;> rfl

theorem detect_none (cfg : ControllerConfig) (st : ControllerState) (inp : Inputs)
    (h : inp.charger_current_a = none) : detect_external_changes cfg st inp = st := by
  simp only [detect_external_changes, h]

theorem sync_mode_state_mode (st : ControllerState) (region : String) (c : Bool) :
    (sync_mode_state st region c).mode_state = desired_mode_state st region c := by
  simp only [sync_mode_state]
  split_ifs with h
  · rfl
  · exact not_not.mp h

theorem sync_mode_state_index (st : ControllerState) (region : String) (c : Bool) :
    (sync_mode_state st region c).evse_step_index = st.evse_step_index := by
  simp only [sync_mode_state]; split_ifs <;> rfl

theorem sync_mode_state_last (st : ControllerState) (region : String) (c : Bool) :
    (sync_mode_state st region c).last_change_ts_s = st.last_change_ts_s := by
  simp only [sync_mode_state]; split_ifs <;> rfl

theorem sync_mode_state_waiting (st : ControllerState) (region : String) (c : Bool) :
    (sync_mode_state st region c).waiting_since_ts_s = st.waiting_since_ts_s := by
  simp only [sync_mode_state]; split_ifs <;> rfl

theorem sync_mode_state_pending (st : ControllerState) (region : String) (c : Bool) :
    (sync_mode_state st region c).pending_effect_ts_s = st.pending_effect_ts_s := by
  simp only [sync_mode_state]; split_ifs <;> rfl

theorem desired_mode_state_OFF_iff (st : ControllerState) (region : String) (c : Bool) :
    desired_mode_state st region c = ModeState.OFF ↔ st.evse_step_index = 0 := by
  unfold desired_mode_state
  split_ifs <;> simp_all

theorem set_step_index (cfg : ControllerConfig) (st : ControllerState) (inp : Inputs)
    (k : Nat) (r : String) :
    (set_step cfg st inp k r).new_state.evse_step_index = min k 7 := rfl

theorem set_step_reason (cfg : ControllerConfig) (st : ControllerState) (inp : Inputs)
    (k : Nat) (r : String) : (set_step cfg st inp k r).reason = r := rfl

theorem set_step_waiting (cfg : ControllerConfig) (st : ControllerState) (inp : Inputs)
    (k : Nat) (r : String) :
    (set_step cfg st inp k r).new_state.waiting_since_ts_s = st.waiting_since_ts_s := rfl

theorem set_step_mode_OFF_iff (cfg : ControllerConfig) (st : ControllerState) (inp : Inputs)
    (k : Nat) (r : String) :
    (set_step cfg st inp k r).new_state.mode_state = ModeState.OFF ↔ min k 7 = 0 := by
  simp only [set_step]
  split_ifs <;> simp_all

theorem force_off_reason (st : ControllerState) (inp : Inputs) (r : String) (l : Bool) :
    (force_off st inp r l).reason = r := rfl

theorem force_off_index (st : ControllerState) (inp : Inputs) (r : String) (l : Bool) :
    (force_off st inp r l).new_state.evse_step_index = 0 := rfl

theorem force_off_mode (st : ControllerState) (inp : Inputs) (r : String) (l : Bool) :
    (force_off st inp r l).new_state.mode_state = ModeState.OFF := rfl

theorem global_rules_some (st : ControllerState) (inp : Inputs) (d : DerivedValues)
    (dec : Decision) (h : global_rules st inp d = some dec) :
    (dec.reason = ("fault_state") \/ dec.reason = ("waiting_timeout") \/
      dec.reason = ("ev_unplugged") \/ dec.reason = ("auto_disabled")) /\
    dec.new_state.evse_step_index = 0 /\ dec.new_state.mode_state = ModeState.OFF := by
  unfold global_rules at h
  split_ifs at h with h1 h2 h3 h4
  all_goals obtain rfl := (Option.some.inj h).symm
  all_goals exact ⟨by simp [force_off], rfl, rfl⟩

theorem main_start_logic_some (cfg : ControllerConfig) (st : ControllerState) (inp : Inputs)
    (d : DerivedValues) (dec : Decision) (h : main_start_logic cfg st inp d = some dec) :
    dec = set_step cfg st inp 1 ("main_start") /\ inverter_safe cfg inp 0 = true := by
  unfold main_start_logic at h
  split at h
  · exact Option.noConfusion h
  · split_ifs at h with h1 h2
    exact ⟨(Option.some.inj h).symm, h2⟩

theorem probe_start_logic_some (cfg : ControllerConfig) (st : ControllerState) (inp : Inputs)
    (dec : Decision) (h : probe_start_logic cfg st inp = some dec) :
    dec = set_step cfg st inp 1 ("probe_start") /\ inverter_safe cfg inp 0 = true := by
  unfold probe_start_logic at h
  split at h
  · exact Option.noConfusion h
  · split_ifs at h with h1 h2
    exact ⟨(Option.some.inj h).symm, h2⟩

theorem inverter_emergency_some (cfg : ControllerConfig) (st : ControllerState) (inp : Inputs)
    (d : DerivedValues) (dec : Decision) (h : inverter_emergency cfg st inp d = some dec) :
    (st.evse_step_index = 1 /\ dec = set_step cfg st inp 0 ("inverter_drop")) \/
      (2 ≤ st.evse_step_index /\
        dec = set_step cfg st inp (st.evse_step_index - 1) ("inverter_step_down")) := by
  unfold inverter_emergency at h
  split_ifs at h with h1 h2 h3
  · exact Or.inl ⟨h3, (Option.some.inj h).symm⟩
  · exact Or.inr ⟨by omega, (Option.some.inj h).symm⟩

theorem probe_ready_logic_some (cfg : ControllerConfig) (st : ControllerState) (inp : Inputs)
    (d : DerivedValues) (dec : Decision) (h : probe_ready_logic cfg st inp d = some dec) :
    0 < st.evse_step_index /\
      ((st.evse_step_index < 7 /\ d.effect_ready = true /\
          inverter_safe cfg inp st.evse_step_index = true /\
          dec = set_step cfg st inp (st.evse_step_index + 1) ("probe_step_up")) \/
        dec = set_step cfg st inp (st.evse_step_index - 1) ("probe_step_down")) := by
  unfold probe_ready_logic at h
  split at h
  · exact Option.noConfusion h
  · split_ifs at h with h1 h2 h3 h4
    · exact ⟨by omega, Or.inl ⟨h3.1, h3.2.1, h3.2.2, (Option.some.inj h).symm⟩⟩
    · exact ⟨by omega, Or.inr (Option.some.inj h).symm⟩

theorem main_ready_logic_some (cfg : ControllerConfig) (st : ControllerState) (inp : Inputs)
    (d : DerivedValues) (dec : Decision) (h : main_ready_logic cfg st inp d = some dec) :
    0 < st.evse_step_index /\
      ((st.evse_step_index < 7 /\ d.effect_ready = true /\
          inverter_safe cfg inp st.evse_step_index = true /\
          dec = set_step cfg st inp (st.evse_step_index + 1) ("main_step_up")) \/
        dec = set_step cfg st inp (st.evse_step_index - 1) ("main_conservative_batt_discharge") \/
        dec = set_step cfg st inp (st.evse_step_index - 1) ("main_conservative_step_down") \/
        dec = set_step cfg st inp (st.evse_step_index - 1) ("main_step_down")) := by
  simp only [main_ready_logic] at h
  split at h
  next dec2 heq =>
    obtain rfl := (Option.some.inj h).symm
    split_ifs at heq with h1
    split at heq <;>
      first
        | exact Option.noConfusion heq
        | (split_ifs at heq with h50
           exact ⟨h1.2, Or.inr (Or.inl (Option.some.inj heq).symm)⟩)
  next heq =>
    split_ifs at h with h1 hc <;>
      (split at h <;>
        first
          | exact Option.noConfusion h
          | (split at h <;>
              first
                | (rename_i dec2 hup
                   obtain rfl := (Option.some.inj h).symm
                   split_ifs at hup with h2
                   exact ⟨h1, Or.inl ⟨h2.1, h2.2.1, h2.2.2.2, (Option.some.inj hup).symm⟩⟩)
                | (split_ifs at h with h2
                   first
                     | exact ⟨h1, Or.inr (Or.inr (Or.inl (Option.some.inj h).symm))⟩
                     | exact ⟨h1, Or.inr (Or.inr (Or.inr (Option.some.inj h).symm))⟩)))

theorem tick_decision_eq (cfg : ControllerConfig) (st : ControllerState) (inp : Inputs) :
    (tick cfg st inp).decision =
      rules_decision cfg (evalState cfg st inp) inp (deriveVals cfg st inp) := rfl

theorem tick_state_eq (cfg : ControllerConfig) (st : ControllerState) (inp : Inputs) :
    (tick cfg st inp).state =
      (match rules_decision cfg (evalState cfg st inp) inp (deriveVals cfg st inp) with
        | some dec => dec.new_state
        | none => evalState cfg st inp) := rfl

theorem evalState_index_no_resync (cfg : ControllerConfig) (st : ControllerState) (inp : Inputs)
    (h : inp.charger_current_a = none) :
    (evalState cfg st inp).evse_step_index = st.evse_step_index := by
  unfold evalState preState
  rw [update_waiting_timer_index, sync_mode_state_index, detect_none _ _ _ h, deriveState_index]

theorem evalState_mode_OFF (cfg : ControllerConfig) (st : ControllerState) (inp : Inputs) :
    (evalState cfg st inp).mode_state = ModeState.OFF ↔
      (evalState cfg st inp).evse_step_index = 0 := by
  unfold evalState preState
  rw [update_waiting_timer_mode, update_waiting_timer_index, sync_mode_state_mode,
    sync_mode_state_index, desired_mode_state_OFF_iff]

theorem rules_decision_cases (cfg : ControllerConfig) (stw : ControllerState) (inp : Inputs)
    (d : DerivedValues) (dec : Decision)
    (hOFF : stw.mode_state = ModeState.OFF → stw.evse_step_index = 0)
    (h : rules_decision cfg stw inp d = some dec) :
    ((dec.reason = ("fault_state") \/ dec.reason = ("waiting_timeout") \/
        dec.reason = ("ev_unplugged") \/ dec.reason = ("auto_disabled")) /\
      dec.new_state.evse_step_index = 0 /\ dec.new_state.mode_state = ModeState.OFF) \/
    (stw.evse_step_index = 0 /\ inverter_safe cfg inp 0 = true /\
      (dec = set_step cfg stw inp 1 ("main_start") \/ dec = set_step cfg stw inp 1 ("probe_start"))) \/
    (stw.evse_step_index = 1 /\ dec = set_step cfg stw inp 0 ("inverter_drop")) \/
    (2 ≤ stw.evse_step_index /\
      dec = set_step cfg stw inp (stw.evse_step_index - 1) ("inverter_step_down")) \/
    (0 < stw.evse_step_index /\
      (dec = set_step cfg stw inp (stw.evse_step_index - 1) ("main_conservative_batt_discharge") \/
        dec = set_step cfg stw inp (stw.evse_step_index - 1) ("main_conservative_step_down") \/
        dec = set_step cfg stw inp (stw.evse_step_index - 1) ("main_step_down") \/
        dec = set_step cfg stw inp (stw.evse_step_index - 1) ("probe_step_down"))) \/
    (0 < stw.evse_step_index /\ stw.evse_step_index < 7 /\ d.effect_ready = true /\
      inverter_safe cfg inp stw.evse_step_index = true /\
      (dec = set_step cfg stw inp (stw.evse_step_index + 1) ("main_step_up") \/
        dec = set_step cfg stw inp (stw.evse_step_index + 1) ("probe_step_up"))) := by
  unfold rules_decision at h
  split at h
  next dec0 hg =>
    obtain rfl := (Option.some.inj h).symm
    exact Or.inl (global_rules_some _ _ _ _ hg)
  next hg =>
    split_ifs at h with hoff hcool hreg hmode
    · obtain ⟨hd, hsafe⟩ := main_start_logic_some _ _ _ _ _ h
      exact Or.inr (Or.inl ⟨hOFF hoff, hsafe, Or.inl hd⟩)
    · obtain ⟨hd, hsafe⟩ := probe_start_logic_some _ _ _ _ h
      exact Or.inr (Or.inl ⟨hOFF hoff, hsafe, Or.inr hd⟩)
    · split at h
      next dec0 hie =>
        obtain rfl := (Option.some.inj h).symm
        rcases inverter_emergency_some _ _ _ _ _ hie with ⟨h1, hd⟩ | ⟨h2, hd⟩
        · exact Or.inr (Or.inr (Or.inl ⟨h1, hd⟩))
        · exact Or.inr (Or.inr (Or.inr (Or.inl ⟨h2, hd⟩)))
      next hie =>
        obtain ⟨hpos, hca⟩ := main_ready_logic_some _ _ _ _ _ h
        rcases hca with ⟨h7, he, hs, hd⟩ | hd | hd | hd
        · exact Or.inr (Or.inr (Or.inr (Or.inr (Or.inr ⟨hpos, h7, he, hs, Or.inl hd⟩))))
        · exact Or.inr (Or.inr (Or.inr (Or.inr (Or.inl ⟨hpos, Or.inl hd⟩))))
        · exact Or.inr (Or.inr (Or.inr (Or.inr (Or.inl ⟨hpos, Or.inr (Or.inl hd)⟩))))
        · exact Or.inr (Or.inr (Or.inr (Or.inr (Or.inl ⟨hpos, Or.inr (Or.inr (Or.inl hd))⟩))))
    · split at h
      next dec0 hie =>
        obtain rfl := (Option.some.inj h).symm
        rcases inverter_emergency_some _ _ _ _ _ hie with ⟨h1, hd⟩ | ⟨h2, hd⟩
        · exact Or.inr (Or.inr (Or.inl ⟨h1, hd⟩))
        · exact Or.inr (Or.inr (Or.inr (Or.inl ⟨h2, hd⟩)))
      next hie =>
        obtain ⟨hpos, hca⟩ := probe_ready_logic_some _ _ _ _ _ h
        rcases hca with ⟨h7, he, hs, hd⟩ | hd
        · exact Or.inr (Or.inr (Or.inr (Or.inr (Or.inr ⟨hpos, h7, he, hs, Or.inr hd⟩))))
        · exact Or.inr (Or.inr (Or.inr (Or.inr (Or.inl ⟨hpos, Or.inr (Or.inr (Or.inr hd))⟩))))

/-! Computation lemmas for forward evaluation of a tick. -/

theorem global_rules_none_of (st : ControllerState) (inp : Inputs) (d : DerivedValues)
    (hf : pyLower inp.charger_status ≠ ("fault")) (hw : d.waiting_timed_out = false)
    (hp : d.ev_plugged = true) (ha : inp.auto_enabled = true) :
    global_rules st inp d = none := by
  unfold global_rules
  split_ifs with h1 h2 h3 <;> simp_all

theorem cooldown_inactive (cfg : ControllerConfig) (st : ControllerState) (inp : Inputs)
    (h : cfg.cooldown_s ≤ inp.now_s - st.last_change_ts_s) :
    (deriveVals cfg st inp).cooldown_active = false := by
  simp only [deriveVals]
  apply decide_eq_false
  unfold pyMax
  split_ifs <;> linarith

theorem waiting_not_timed_out (cfg : ControllerConfig) (st : ControllerState) (inp : Inputs)
    (h : ∀ t, st.waiting_since_ts_s = some t → inp.now_s - t ≤ cfg.waiting_timeout_s) :
    (deriveVals cfg st inp).waiting_timed_out = false := by
  simp only [deriveVals]
  rcases hw : st.waiting_since_ts_s with _ | t
  · rfl
  · exact decide_eq_false (not_lt.mpr (h t hw))

theorem deriveVals_region_eq (cfg : ControllerConfig) (st : ControllerState) (inp : Inputs) :
    (deriveVals cfg st inp).region = region_for_soc cfg inp.batt_soc_percent := rfl

theorem deriveVals_plugged (cfg : ControllerConfig) (st : ControllerState) (inp : Inputs) :
    (deriveVals cfg st inp).ev_plugged = ev_plugged inp.charger_status := rfl

theorem deriveVals_effect (cfg : ControllerConfig) (st : ControllerState) (inp : Inputs) :
    (deriveVals cfg st inp).effect_ready = effect_ready_now cfg st inp := rfl

theorem ev_plugged_of (s : String) (h : pyLower s ≠ ("available")) : ev_plugged s = true :=
  decide_eq_true h

theorem inverter_safe_none (cfg : ControllerConfig) (inp : Inputs) (i : Nat)
    (h : inp.inverter_power_w = none) : inverter_safe cfg inp i = true := by
  simp [inverter_safe, h]

theorem inverter_over_limit_of (cfg : ControllerConfig) (st : ControllerState) (inp : Inputs)
    (w : ℚ) (hw : inp.inverter_power_w = some w) (h : cfg.safe_inverter_max_w < w) :
    (deriveVals cfg st inp).inverter_over_limit = true := by
  simp only [deriveVals, hw]
  exact decide_eq_true h

theorem not_inverter_over_limit_of (cfg : ControllerConfig) (st : ControllerState) (inp : Inputs)
    (h : ∀ w, inp.inverter_power_w = some w → w ≤ cfg.safe_inverter_max_w) :
    (deriveVals cfg st inp).inverter_over_limit = false := by
  simp only [deriveVals]
  rcases hw : inp.inverter_power_w with _ | w
  · rfl
  · exact decide_eq_false (not_lt.mpr (h w hw))

theorem excess_explicit (cfg : ControllerConfig) (st : ControllerState) (inp : Inputs)
    (p v : ℚ) (hr : region_for_soc cfg inp.batt_soc_percent = ("MAIN"))
    (hp : inp.pv_power_w = some p) (hv : inp.inverter_power_w = some v) :
    (deriveVals cfg st inp).excess_w = some (p - v) := by
  simp [deriveVals, hr, hp, hv]

theorem excess_batt_fallback (cfg : ControllerConfig) (st : ControllerState) (inp : Inputs)
    (b : ℚ) (hr : region_for_soc cfg inp.batt_soc_percent = ("MAIN"))
    (hp : inp.pv_power_w = none) (hv : inp.inverter_power_w = none)
    (hb : inp.batt_power_w = some b) :
    (deriveVals cfg st inp).excess_w = some (-b) := by
  simp [deriveVals, hr, hp, hv, hb]

theorem sync_with_charger_cases (cfg : ControllerConfig) (st : ControllerState) (inp : Inputs) :
    sync_with_charger cfg st inp = st ∨
      ((sync_with_charger cfg st inp).evse_step_index ≠ 0 ∧
        (sync_with_charger cfg st inp).mode_state ≠ ModeState.OFF) := by
  unfold sync_with_charger
  split_ifs with h1 h2
  · exact Or.inl rfl
  · split
    · exact Or.inl rfl
    · split_ifs with h3
      · exact Or.inl rfl
      · split
        next m bi hfold =>
          split_ifs with h4
          · refine Or.inr ⟨?_, ?_⟩
            · show bi ≠ 0
              omega
            · show (if region_for_soc cfg inp.batt_soc_percent = ("MAIN") then
                  ModeState.MAIN_READY else ModeState.PROBE_READY) ≠ ModeState.OFF
              split_ifs <;> simp
          · exact Or.inl rfl
        next x y hfold =>
          exact Or.inl rfl
  · exact Or.inl rfl

/-! Claim theorems. -/

/-- C7: for every prior state satisfying `evse_step_index = 0 ↔ mode_state = OFF`
and every `Inputs`, the state after `tick` (whether reached via a decision,
via resync, or via mode-state synchronization with no decision) again
satisfies the equivalence, and `sync_with_charger` preserves it as well. -/
theorem C7_off_step_consistency (cfg : ControllerConfig) (st : ControllerState) (inp : Inputs)
    (hst : st.evse_step_index = 0 ↔ st.mode_state = ModeState.OFF) :
    ((tick cfg st inp).state.evse_step_index = 0 ↔
      (tick cfg st inp).state.mode_state = ModeState.OFF) ∧
    ((sync_with_charger cfg st inp).evse_step_index = 0 ↔
      (sync_with_charger cfg st inp).mode_state = ModeState.OFF) := by
  constructor
  · rw [tick_state_eq]
    cases h : rules_decision cfg (evalState cfg st inp) inp (deriveVals cfg st inp) with
    | none =>
      exact (evalState_mode_OFF cfg st inp).symm
    | some dec =>
      have hOFF : (evalState cfg st inp).mode_state = ModeState.OFF →
          (evalState cfg st inp).evse_step_index = 0 :=
        fun hm => (evalState_mode_OFF cfg st inp).mp hm
      rcases rules_decision_cases cfg _ inp _ dec hOFF h with
          ⟨_, hi, hm⟩ | ⟨_, _, hd | hd⟩ | ⟨_, hd⟩ | ⟨_, hd⟩ | ⟨_, hd | hd | hd | hd⟩ |
          ⟨_, _, _, _, hd | hd⟩
      · simp [hi, hm]
      all_goals subst hd
      all_goals simp [set_step_index, set_step_mode_OFF_iff]
  · rcases sync_with_charger_cases cfg st inp with h | ⟨hi, hm⟩
    · rw [h]; exact hst
    · exact iff_of_false hi hm

/-- C7 witness: the default OFF state satisfies the invariant, and one tick
from it (with benign inputs) preserves it, as does a startup sync. -/
theorem C7_off_step_consistency_witness :
    ((tick defaultConfig initState c7inp).state.evse_step_index = 0 ↔
      (tick defaultConfig initState c7inp).state.mode_state = ModeState.OFF) ∧
    ((sync_with_charger defaultConfig initState c7inp).evse_step_index = 0 ↔
      (sync_with_charger defaultConfig initState c7inp).mode_state = ModeState.OFF) :=
  C7_off_step_consistency defaultConfig initState c7inp (by with_unfolding_all decide)

/-- C8: running `sync_with_charger` twice in succession with the same
unchanged inputs produces the same state as running it once, for every
initial state and inputs. -/
theorem C8_sync_idempotent (cfg : ControllerConfig) (st : ControllerState) (inp : Inputs) :
    sync_with_charger cfg (sync_with_charger cfg st inp) inp = sync_with_charger cfg st inp := by
  rcases sync_with_charger_cases cfg st inp with h | ⟨hi, _⟩
  · rw [h]
    exact h
  · generalize hr : sync_with_charger cfg st inp = r at hi ⊢
    unfold sync_with_charger
    simp [hi]

/-- C9 counterexample: a configuration that sets `sensor_latency_s = 7`,
`soc_conservative_below = 50` and `conservative_charge_target_w = 999` still
loads the dataclass defaults 25, 94, 100 — the loader does not read these
options, refuting the claim that setting them to X yields X. -/
theorem C9_counterexample :
    (fun k => if k = ("sensor_latency_s") then some (7:ℚ)
      else if k = ("soc_conservative_below") then some 50
      else if k = ("conservative_charge_target_w") then some 999
      else none) ("sensor_latency_s") = some 7 ∧
    (build_controller_config
      (fun k => if k = ("sensor_latency_s") then some (7:ℚ)
        else if k = ("soc_conservative_below") then some 50
        else if k = ("conservative_charge_target_w") then some 999
        else none) (fun _ _ => none)).sensor_latency_s = 25 ∧
    (build_controller_config
      (fun k => if k = ("sensor_latency_s") then some (7:ℚ)
        else if k = ("soc_conservative_below") then some 50
        else if k = ("conservative_charge_target_w") then some 999
        else none) (fun _ _ => none)).soc_conservative_below = 94 ∧
    (build_controller_config
      (fun k => if k = ("sensor_latency_s") then some (7:ℚ)
        else if k = ("soc_conservative_below") then some 50
        else if k = ("conservative_charge_target_w") then some 999
        else none) (fun _ _ => none)).conservative_charge_target_w = 100 ∧
    (25:ℚ) ≠ 7 ∧ (94:ℚ) ≠ 50 ∧ (100:ℚ) ≠ 999 := by
  with_unfolding_all decide

/-- C9 amended: the loader does not read `sensor_latency_s`,
`soc_conservative_below` or `conservative_charge_target_w`; the loaded
`ControllerConfig` always carries the dataclass defaults 25, 94 and 100 for
these fields, regardless of the configuration object. -/
theorem C9_amended (get : String → Option ℚ) (gn : String → String → Option ℚ) :
    (build_controller_config get gn).sensor_latency_s = 25 ∧
    (build_controller_config get gn).soc_conservative_below = 94 ∧
    (build_controller_config get gn).conservative_charge_target_w = 100 :=
  ⟨rfl, rfl, rfl⟩

/-- C10: when the inverter reading is absent, `_inverter_safe` is true at
every step index, so the inverter gate never blocks a start; concretely, in
the MAIN region from OFF with PV and inverter absent and the battery
charging at at least `step[1] × line_voltage_v` watts (and no global gate,
cooldown elapsed, no resync), the tick emits `main_start`. -/
theorem C10_absent_inverter_never_blocks (cfg : ControllerConfig) (st : ControllerState)
    (inp : Inputs) (b : ℚ)
    (hinv : inp.inverter_power_w = none) (hpv : inp.pv_power_w = none)
    (hb : inp.batt_power_w = some b)
    (hthr : stepAmps 1 * cfg.line_voltage_v ≤ -b)
    (hregion : region_for_soc cfg inp.batt_soc_percent = ("MAIN"))
    (hst0 : st.evse_step_index = 0)
    (hcool : cfg.cooldown_s ≤ inp.now_s - st.last_change_ts_s)
    (hstat : pyLower inp.charger_status = ("charging"))
    (hwait : st.waiting_since_ts_s = none)
    (hauto : inp.auto_enabled = true)
    (hcur : inp.charger_current_a = none) :
    (∀ i, inverter_safe cfg inp i = true) ∧
    ((tick cfg st inp).decision.map Decision.reason) = some ("main_start") ∧
    ((tick cfg st inp).decision.map fun d => d.new_state.evse_step_index) = some 1 := by
  have hsafe : ∀ i, inverter_safe cfg inp i = true := fun i => inverter_safe_none cfg inp i hinv
  have hg : global_rules (evalState cfg st inp) inp (deriveVals cfg st inp) = none := by
    apply global_rules_none_of
    · rw [hstat]; intro hfault; exact absurd hfault (by with_unfolding_all decide)
    · exact waiting_not_timed_out cfg st inp (by intro t ht; rw [hwait] at ht; cases ht)
    · rw [deriveVals_plugged]
      apply ev_plugged_of
      rw [hstat]; intro havail; exact absurd havail (by with_unfolding_all decide)
    · exact hauto
  have hes_idx : (evalState cfg st inp).evse_step_index = 0 := by
    rw [evalState_index_no_resync cfg st inp hcur, hst0]
  have hes_mode : (evalState cfg st inp).mode_state = ModeState.OFF :=
    (evalState_mode_OFF cfg st inp).mpr hes_idx
  have hms : main_start_logic cfg (evalState cfg st inp) inp (deriveVals cfg st inp) =
      some (set_step cfg (evalState cfg st inp) inp 1 ("main_start")) := by
    unfold main_start_logic
    simp only [excess_batt_fallback cfg st inp b hregion hpv hinv hb]
    rw [if_neg (not_lt.mpr hthr), if_neg (not_not_intro (hsafe 0))]
  have hreg2 : (deriveVals cfg st inp).region = ("MAIN") := by
    rw [deriveVals_region_eq, hregion]
  have hdec : (tick cfg st inp).decision =
      some (set_step cfg (evalState cfg st inp) inp 1 ("main_start")) := by
    rw [tick_decision_eq]
    unfold rules_decision
    simp only [hg, hes_mode, cooldown_inactive cfg st inp hcool, hreg2, if_true,
      Bool.false_eq_true, if_false, reduceIte]
    exact hms
  refine ⟨hsafe, ?_, ?_⟩ <;> rw [hdec] <;> rfl

/-- C10 witness: concrete instance with battery charging at 1500 W, PV and
inverter sensors absent; the tick emits `main_start` to index 1. -/
theorem C10_absent_inverter_never_blocks_witness :
    (∀ i, inverter_safe defaultConfig c10inp i = true) ∧
    ((tick defaultConfig initState c10inp).decision.map Decision.reason) = some ("main_start") ∧
    ((tick defaultConfig initState c10inp).decision.map fun d => d.new_state.evse_step_index) =
      some 1 :=
  C10_absent_inverter_never_blocks defaultConfig initState c10inp (-1500) rfl rfl rfl
    (by with_unfolding_all decide) rfl (by with_unfolding_all decide)
    (by with_unfolding_all decide) (by with_unfolding_all decide) rfl rfl rfl

theorem evalState_mode_eq (cfg : ControllerConfig) (st : ControllerState) (inp : Inputs) :
    (evalState cfg st inp).mode_state =
      desired_mode_state (detect_external_changes cfg (deriveState cfg st inp) inp)
        (deriveVals cfg st inp).region (deriveVals cfg st inp).cooldown_active := by
  unfold evalState preState
  rw [update_waiting_timer_mode, sync_mode_state_mode]

theorem desired_mode_ready (st : ControllerState) (region : String) (c : Bool)
    (hi : st.evse_step_index ≠ 0) (hc : c = false) :
    desired_mode_state st region c =
      (if region = ("MAIN") then ModeState.MAIN_READY else ModeState.PROBE_READY) := by
  unfold desired_mode_state
  rw [if_neg hi, hc]
  simp

/-- C1 counterexample: with step 2, the cooldown still running, no global
gate, and the inverter over the safe limit, the tick emits NO decision at
all — the inverter override does not preempt the cooldown hold, because the
rule evaluator returns early in the COOLDOWN states before the emergency is
checked. -/
theorem C1_counterexample :
    0 < c1st.evse_step_index ∧
    c1st.mode_state = ModeState.MAIN_COOLDOWN ∧
    c1inp.now_s - c1st.last_change_ts_s < defaultConfig.cooldown_s ∧
    pyLower c1inp.charger_status ≠ ("fault") ∧
    c1st.waiting_since_ts_s = none ∧
    ev_plugged c1inp.charger_status = true ∧
    c1inp.auto_enabled = true ∧
    c1inp.inverter_power_w = some 8000 ∧
    defaultConfig.safe_inverter_max_w < 8000 ∧
    (tick defaultConfig c1st c1inp).decision = none := by
  refine ⟨by with_unfolding_all decide, by with_unfolding_all decide,
    by with_unfolding_all decide, by with_unfolding_all decide, rfl,
    by with_unfolding_all decide, rfl, rfl, by with_unfolding_all decide, ?_⟩
  have hg : global_rules (evalState defaultConfig c1st c1inp) c1inp
      (deriveVals defaultConfig c1st c1inp) = none := by
    with_unfolding_all decide
  have hm : (evalState defaultConfig c1st c1inp).mode_state = ModeState.MAIN_COOLDOWN := by
    with_unfolding_all decide
  rw [tick_decision_eq]
  unfold rules_decision
  simp [hg, hm]

/-- C1 (amended): for every prior state with evse_step_index > 0 whose
cooldown has ELAPSED (mode READY), every inputs with no global gate firing,
no external-change resync, and inverter_power_w above safe_inverter_max_w,
the tick emits the step-down decision (reason inverter_step_down, or
inverter_drop when at step 1) with the index reduced by one; during the
cooldown the tick emits no decision and the step-down happens on the first
READY tick after the cooldown. -/
theorem C1_amended (cfg : ControllerConfig) (st : ControllerState) (inp : Inputs) (w : ℚ)
    (hidx : 0 < st.evse_step_index) (hidx7 : st.evse_step_index ≤ 7)
    (hcool : cfg.cooldown_s ≤ inp.now_s - st.last_change_ts_s)
    (hfault : pyLower inp.charger_status ≠ ("fault"))
    (hwait : ∀ t, st.waiting_since_ts_s = some t → inp.now_s - t ≤ cfg.waiting_timeout_s)
    (hplug : pyLower inp.charger_status ≠ ("available"))
    (hauto : inp.auto_enabled = true)
    (hcur : inp.charger_current_a = none)
    (hinv : inp.inverter_power_w = some w)
    (hover : cfg.safe_inverter_max_w < w) :
    ((tick cfg st inp).decision.map Decision.reason) =
      some (if st.evse_step_index = 1 then ("inverter_drop") else ("inverter_step_down")) ∧
    ((tick cfg st inp).decision.map fun d => d.new_state.evse_step_index) =
      some (st.evse_step_index - 1) := by
  have hidxE : (evalState cfg st inp).evse_step_index = st.evse_step_index :=
    evalState_index_no_resync cfg st inp hcur
  have hg : global_rules (evalState cfg st inp) inp (deriveVals cfg st inp) = none :=
    global_rules_none_of _ inp _ hfault (waiting_not_timed_out cfg st inp hwait)
      (by rw [deriveVals_plugged]; exact ev_plugged_of _ hplug) hauto
  have hover2 : (deriveVals cfg st inp).inverter_over_limit = true :=
    inverter_over_limit_of cfg st inp w hinv hover
  have hmode : (evalState cfg st inp).mode_state = ModeState.MAIN_READY ∨
      (evalState cfg st inp).mode_state = ModeState.PROBE_READY := by
    rw [evalState_mode_eq,
      desired_mode_ready _ _ _ ?_ (cooldown_inactive cfg st inp hcool)]
    · split_ifs <;> simp
    · rw [detect_none _ _ _ hcur, deriveState_index]
      omega
  have hie : inverter_emergency cfg (evalState cfg st inp) inp (deriveVals cfg st inp) =
      some (set_step cfg (evalState cfg st inp) inp
        (if st.evse_step_index = 1 then 0 else st.evse_step_index - 1)
        (if st.evse_step_index = 1 then ("inverter_drop") else ("inverter_step_down"))) := by
    unfold inverter_emergency
    rw [hidxE, hover2]
    rw [if_neg (by omega : ¬ st.evse_step_index = 0)]
    rw [if_neg (not_not_intro rfl)]
    by_cases h1 : st.evse_step_index = 1 <;> simp [h1]
  have hdec : (tick cfg st inp).decision =
      some (set_step cfg (evalState cfg st inp) inp
        (if st.evse_step_index = 1 then 0 else st.evse_step_index - 1)
        (if st.evse_step_index = 1 then ("inverter_drop") else ("inverter_step_down"))) := by
    rw [tick_decision_eq]
    unfold rules_decision
    rcases hmode with hm | hm <;> simp [hg, hm, hie]
  constructor
  · rw [hdec]
    rfl
  · rw [hdec]
    show some (min (if st.evse_step_index = 1 then 0 else st.evse_step_index - 1) 7) =
      some (st.evse_step_index - 1)
    split_ifs with h1 <;> (congr 1; omega)

/-- C1 witness: at step 3 in MAIN_READY with the inverter at 8000 W, the
tick emits inverter_step_down to index 2. -/
theorem C1_amended_witness :
    ((tick defaultConfig c1wst c1winp).decision.map Decision.reason) =
      some (if c1wst.evse_step_index = 1 then ("inverter_drop") else ("inverter_step_down")) ∧
    ((tick defaultConfig c1wst c1winp).decision.map fun d => d.new_state.evse_step_index) =
      some (c1wst.evse_step_index - 1) :=
  C1_amended defaultConfig c1wst c1winp 8000
    (by with_unfolding_all decide) (by with_unfolding_all decide)
    (by with_unfolding_all decide) (by with_unfolding_all decide)
    (fun t ht => Option.noConfusion ht) (by with_unfolding_all decide)
    rfl rfl rfl (by with_unfolding_all decide)

/-- C4: evaluating the tick at the failing input: prior state has the
vehicle-waiting timer latched at t = 1000 and the charger reports "fault";
the code emits the fault_state forced OFF but with waiting_since_ts_s
CLEARED to none, not latched — `_update_waiting_timer` clears the timer
(status is not "waiting") before `_force_off(latch_wait=True)` reads it, so
the latch the spec (and the latch_wait flag) intend is ineffective. -/
theorem C4_fault_clears_waiting_timer :
    c4st.waiting_since_ts_s = some 1000 ∧
    pyLower c4inp.charger_status = ("fault") ∧
    ((tick defaultConfig c4st c4inp).decision.map fun d =>
      (d.reason, d.new_state.waiting_since_ts_s, d.new_state.evse_step_index)) =
      some (("fault_state"), none, 0) := by
  with_unfolding_all decide

/-- C5 counterexample: in the conservative substate (SOC 90 < 94) at step 2
with explicit excess 500 ≥ conservative_charge_target_w, no cooldown, no
global gate and the inverter under limit, the tick does NOT hold the step:
the step-up rule is evaluated before the conservative hold and fires
(main_step_up to index 3), changing evse_step_index. -/
theorem C5_counterexample :
    is_conservative_mode defaultConfig c5inp.batt_soc_percent = true ∧
    region_for_soc defaultConfig c5inp.batt_soc_percent = ("MAIN") ∧
    c5st.evse_step_index = 2 ∧
    (deriveVals defaultConfig c5st c5inp).cooldown_active = false ∧
    (deriveVals defaultConfig c5st c5inp).inverter_over_limit = false ∧
    (deriveVals defaultConfig c5st c5inp).excess_w = some 500 ∧
    defaultConfig.conservative_charge_target_w ≤ 500 ∧
    ((tick defaultConfig c5st c5inp).decision.map fun d =>
      (d.reason, d.new_state.evse_step_index)) = some (("main_step_up"), 3) := by
  with_unfolding_all decide

/-- C5 (amended): in the MAIN region's conservative substate (SOC present
and below soc_conservative_below), for every prior state with index > 0 not
in cooldown and inputs where no global gate fires, the inverter is not over
limit, no resync occurs, the explicit excess is at least
conservative_charge_target_w, AND the step-up rule does not fire this tick
(index maxed, excess below step_up_power, latency window active, or not
inverter-safe), the tick holds the current step: it emits no decision. -/
theorem C5_amended (cfg : ControllerConfig) (st : ControllerState) (inp : Inputs)
    (s p v : ℚ)
    (hidx : 0 < st.evse_step_index) (hidx7 : st.evse_step_index ≤ 7)
    (hcur : inp.charger_current_a = none)
    (hcool : cfg.cooldown_s ≤ inp.now_s - st.last_change_ts_s)
    (hfault : pyLower inp.charger_status ≠ ("fault"))
    (hwait : ∀ t, st.waiting_since_ts_s = some t → inp.now_s - t ≤ cfg.waiting_timeout_s)
    (hplug : pyLower inp.charger_status ≠ ("available"))
    (hauto : inp.auto_enabled = true)
    (hsoc : inp.batt_soc_percent = some s) (hcons : s < cfg.soc_conservative_below)
    (hreg : region_for_soc cfg inp.batt_soc_percent = ("MAIN"))
    (hpv : inp.pv_power_w = some p) (hinv : inp.inverter_power_w = some v)
    (hnover : v ≤ cfg.safe_inverter_max_w)
    (htarget : cfg.conservative_charge_target_w ≤ p - v)
    (hnoup : st.evse_step_index = 7 ∨ p - v < step_up_power cfg st.evse_step_index ∨
      effect_ready_now cfg st inp = false ∨
      inverter_safe cfg inp st.evse_step_index = false) :
    (tick cfg st inp).decision = none := by
  have hidxE : (evalState cfg st inp).evse_step_index = st.evse_step_index :=
    evalState_index_no_resync cfg st inp hcur
  have hg : global_rules (evalState cfg st inp) inp (deriveVals cfg st inp) = none :=
    global_rules_none_of _ inp _ hfault (waiting_not_timed_out cfg st inp hwait)
      (by rw [deriveVals_plugged]; exact ev_plugged_of _ hplug) hauto
  have hnover2 : (deriveVals cfg st inp).inverter_over_limit = false :=
    not_inverter_over_limit_of cfg st inp
      (by intro u hu; rw [hinv] at hu; cases hu; exact hnover)
  have hreg2 : (deriveVals cfg st inp).region = ("MAIN") := by
    rw [deriveVals_region_eq, hreg]
  have hmode : (evalState cfg st inp).mode_state = ModeState.MAIN_READY := by
    rw [evalState_mode_eq,
      desired_mode_ready _ _ _ ?_ (cooldown_inactive cfg st inp hcool)]
    · rw [deriveVals_region_eq, hreg]
      simp
    · rw [detect_none _ _ _ hcur, deriveState_index]
      omega
  have hie : inverter_emergency cfg (evalState cfg st inp) inp (deriveVals cfg st inp) =
      none := by
    unfold inverter_emergency
    rw [hidxE, hnover2]
    rw [if_neg (by omega : ¬ st.evse_step_index = 0)]
    rw [if_pos (by simp : ¬ (false : Bool) = true)]
  have hcons2 : is_conservative_mode cfg inp.batt_soc_percent = true := by
    rw [hsoc]
    exact decide_eq_true hcons
  have hex : (deriveVals cfg st inp).excess_w = some (p - v) :=
    excess_explicit cfg st inp p v hreg hpv hinv
  have hup : ¬ ((evalState cfg st inp).evse_step_index < 7 ∧
      (deriveVals cfg st inp).effect_ready = true ∧
      step_up_power cfg (evalState cfg st inp).evse_step_index ≤ p - v ∧
      inverter_safe cfg inp (evalState cfg st inp).evse_step_index = true) := by
    rw [hidxE, deriveVals_effect]
    rintro ⟨h7, he, hpow, hs⟩
    rcases hnoup with h | h | h | h
    · omega
    · linarith
    · rw [he] at h
      cases h
    · rw [hs] at h
      cases h
  have hpos : 0 < (evalState cfg st inp).evse_step_index := by omega
  have hmain : main_ready_logic cfg (evalState cfg st inp) inp (deriveVals cfg st inp) =
      none := by
    unfold main_ready_logic
    simp only [hcons2, hex, ite_self]
    rw [if_pos hpos]
    rw [if_neg hup]
    simp [htarget]
  rw [tick_decision_eq]
  unfold rules_decision
  simp [hg, hmode, hie, hmain, hreg2]

/-- C5 witness: SOC 90, step 2, explicit excess 300 W — above the
conservative target (100) but below the step-up requirement (460); the tick
emits no decision. -/
theorem C5_amended_witness : (tick defaultConfig c5st c5winp).decision = none :=
  C5_amended defaultConfig c5st c5winp 90 2800 2500
    (by with_unfolding_all decide) (by with_unfolding_all decide) rfl
    (by with_unfolding_all decide) (by with_unfolding_all decide)
    (fun t ht => Option.noConfusion ht) (by with_unfolding_all decide)
    rfl rfl (by with_unfolding_all decide) rfl rfl rfl
    (by with_unfolding_all decide) (by with_unfolding_all decide)
    (by with_unfolding_all decide)

/-- C6 counterexample: a step-up at t₀ = 100 (latency window until 125), a
step-down at t = 106 that clears pending_effect_ts_s, and then ANOTHER
step-up at t = 112 < t₀ + sensor_latency_s: the latency gate does not
survive an intervening step-down, refuting the claim for arbitrary
intervening sequences. -/
theorem C6_counterexample :
    ((tick defaultConfig c6st0 c6inp1).decision.map fun d =>
      (d.reason, d.new_state.evse_step_index, d.new_state.pending_effect_ts_s)) =
      some (("main_step_up"), 2, some 100) ∧
    ((tick defaultConfig c6st1 c6inp2).decision.map fun d =>
      (d.reason, d.new_state.evse_step_index, d.new_state.pending_effect_ts_s)) =
      some (("main_step_down"), 1, none) ∧
    c6st2.evse_step_index = 1 ∧
    ((tick defaultConfig c6st2 c6inp3).decision.map fun d =>
      (d.reason, d.new_state.evse_step_index)) = some (("main_step_up"), 2) ∧
    c6inp3.now_s < 100 + defaultConfig.sensor_latency_s := by
  refine ⟨by with_unfolding_all decide, by with_unfolding_all decide,
    by with_unfolding_all decide, by with_unfolding_all decide,
    by with_unfolding_all decide⟩

/-- C6 (amended): after a step-up at time t₀, no further step-up is emitted
while pending_effect_ts_s = t₀ remains set, now < t₀ + sensor_latency_s and
no resync occurs: every decision emitted by such a tick has a new index no
greater than the prior index. The pending marker (and with it the gate) is
cleared by a step-down, a forced OFF, a resync, or the elapse of
sensor_latency_s. -/
theorem C6_amended (cfg : ControllerConfig) (st : ControllerState) (inp : Inputs)
    (t0 : ℚ) (dec : Decision)
    (hpend : st.pending_effect_ts_s = some t0)
    (hidx : 0 < st.evse_step_index)
    (hlat : inp.now_s < t0 + cfg.sensor_latency_s)
    (hcur : inp.charger_current_a = none)
    (hdec : (tick cfg st inp).decision = some dec) :
    dec.new_state.evse_step_index ≤ st.evse_step_index := by
  have hidxE : (evalState cfg st inp).evse_step_index = st.evse_step_index :=
    evalState_index_no_resync cfg st inp hcur
  have heff : (deriveVals cfg st inp).effect_ready = false := by
    rw [deriveVals_effect]
    unfold effect_ready_now
    rw [hpend]
    exact decide_eq_false (by linarith)
  rw [tick_decision_eq] at hdec
  have hOFF : (evalState cfg st inp).mode_state = ModeState.OFF →
      (evalState cfg st inp).evse_step_index = 0 :=
    fun hm => (evalState_mode_OFF cfg st inp).mp hm
  rcases rules_decision_cases cfg _ inp _ dec hOFF hdec with
      ⟨_, hi, _⟩ | ⟨h0, _, _⟩ | ⟨_, hd⟩ | ⟨_, hd⟩ | ⟨_, hd | hd | hd | hd⟩ |
      ⟨_, _, he, _, _⟩
  · omega
  · rw [hidxE] at h0
    omega
  all_goals try (subst hd; rw [set_step_index]; rw [hidxE] at *; omega)
  · rw [heff] at he
    cases he

/-- C6 witness: step 2 with pending step-up at t₀ = 100, tick at t = 110
with strongly negative excess: the emitted decision is a step-down to
index 1 ≤ 2. -/
theorem C6_amended_witness :
    (tick defaultConfig c6wst c6winp).decision = some c6wdec ∧
    c6wdec.new_state.evse_step_index ≤ c6wst.evse_step_index := by
  have h : (tick defaultConfig c6wst c6winp).decision = some c6wdec := by
    with_unfolding_all decide
  exact ⟨h, C6_amended defaultConfig c6wst c6winp 100 c6wdec rfl
    (by with_unfolding_all decide) (by with_unfolding_all decide) rfl h⟩

/-- C2 counterexample: from prior index 0, the external-change detector
resyncs to index 2 mid-tick (charger read-back 8 A) and the tick then emits
main_step_up to index 3 — new index 3 exceeds the prior index 0 while
inverter_power_w + (step[3] − step[0])·line_voltage = 9300 exceeds
safe_inverter_max_w = 7500, refuting the claim phrased against the
pre-tick index. -/
theorem C2_counterexample :
    initState.evse_step_index = 0 ∧
    c2inp.inverter_power_w = some 7000 ∧
    ((tick defaultConfig initState c2inp).decision.map fun d =>
      (d.reason, d.new_state.evse_step_index)) = some (("main_step_up"), 3) ∧
    ¬ (7000 + (stepAmps 3 - stepAmps 0) * defaultConfig.line_voltage_v ≤
        defaultConfig.safe_inverter_max_w) := by
  refine ⟨rfl, rfl, by with_unfolding_all decide, by with_unfolding_all decide⟩

/-- C2 (amended): measured against the index the FSM holds when the rules
run (the prior index unless the external-change detector resynced it this
tick), every emitted decision that raises the index satisfies the
inverter-safety bound: inverter_power_w + (step[new] − step[origin]) ·
line_voltage_v ≤ safe_inverter_max_w; equivalently no start or step-up is
emitted when the inverter-safe predicate is false at the origin index. -/
theorem C2_amended (cfg : ControllerConfig) (st : ControllerState) (inp : Inputs)
    (dec : Decision) (w : ℚ)
    (hdec : (tick cfg st inp).decision = some dec)
    (hup : originIndex cfg st inp < dec.new_state.evse_step_index)
    (hinv : inp.inverter_power_w = some w) :
    w + (stepAmps dec.new_state.evse_step_index - stepAmps (originIndex cfg st inp)) *
      cfg.line_voltage_v ≤ cfg.safe_inverter_max_w := by
  rw [tick_decision_eq] at hdec
  have hOFF : (evalState cfg st inp).mode_state = ModeState.OFF →
      (evalState cfg st inp).evse_step_index = 0 :=
    fun hm => (evalState_mode_OFF cfg st inp).mp hm
  have horig : originIndex cfg st inp = (evalState cfg st inp).evse_step_index := rfl
  rcases rules_decision_cases cfg _ inp _ dec hOFF hdec with
      ⟨_, hi, _⟩ | ⟨h0, hsafe, hd | hd⟩ | ⟨_, hd⟩ | ⟨_, hd⟩ |
      ⟨_, hd | hd | hd | hd⟩ | ⟨_, h7, _, hsafe, hd | hd⟩
  · rw [hi] at hup
    omega
  all_goals rw [horig] at hup ⊢
  all_goals try (subst hd; rw [set_step_index] at hup; omega)
  · subst hd
    rw [set_step_index] at hup ⊢
    rw [h0] at hup ⊢
    simp only [inverter_safe, hinv] at hsafe
    have := of_decide_eq_true hsafe
    unfold step_up_power at this
    norm_num at this ⊢
    linarith
  · subst hd
    rw [set_step_index] at hup ⊢
    rw [h0] at hup ⊢
    simp only [inverter_safe, hinv] at hsafe
    have := of_decide_eq_true hsafe
    unfold step_up_power at this
    norm_num at this ⊢
    linarith
  · subst hd
    rw [set_step_index] at hup ⊢
    rw [Nat.min_eq_left (by omega)] at hup ⊢
    simp only [inverter_safe, hinv] at hsafe
    have := of_decide_eq_true hsafe
    unfold step_up_power at this
    linarith
  · subst hd
    rw [set_step_index] at hup ⊢
    rw [Nat.min_eq_left (by omega)] at hup ⊢
    simp only [inverter_safe, hinv] at hsafe
    have := of_decide_eq_true hsafe
    unfold step_up_power at this
    linarith

/-- C2 witness: a main_step_up from index 1 to 2 with the inverter at
2500 W satisfies the amended bound (2500 + 460 ≤ 7500). -/
theorem C2_amended_witness :
    (tick defaultConfig c2wst c2winp).decision = some c2wdec ∧
    2500 + (stepAmps c2wdec.new_state.evse_step_index -
        stepAmps (originIndex defaultConfig c2wst c2winp)) *
      defaultConfig.line_voltage_v ≤ defaultConfig.safe_inverter_max_w := by
  have h : (tick defaultConfig c2wst c2winp).decision = some c2wdec := by
    with_unfolding_all decide
  exact ⟨h, C2_amended defaultConfig c2wst c2winp c2wdec 2500 h
    (by with_unfolding_all decide) rfl⟩

/-- C3 counterexample: from prior index 0 with the cooldown still active,
the charger read-back of 16 A makes the external-change detector resync to
index 5 mid-tick; the tick emits NO decision (so no forced OFF), yet the
index after the tick is 5 — a change of 5 > 1. -/
theorem C3_counterexample :
    initState.evse_step_index = 0 ∧
    (tick defaultConfig initState c3inp).decision = none ∧
    (tick defaultConfig initState c3inp).state.evse_step_index = 5 ∧
    ¬ ((tick defaultConfig initState c3inp).state.evse_step_index ≤
        initState.evse_step_index + 1) := by
  refine ⟨rfl, ?_, ?_, ?_⟩ <;> with_unfolding_all decide

/-- C3 (amended): for every prior state (with a step index in range) and
inputs on which the external-change detector does not resync (the
commanded-current read-back is absent), if the tick does not produce a
forced-OFF decision (reasons fault_state, waiting_timeout, ev_unplugged,
auto_disabled) then the index after the tick differs from the prior index
by at most one. -/
theorem C3_amended (cfg : ControllerConfig) (st : ControllerState) (inp : Inputs)
    (hidx7 : st.evse_step_index ≤ 7)
    (hcur : inp.charger_current_a = none)
    (hforced : ∀ dec, (tick cfg st inp).decision = some dec →
      dec.reason ≠ ("fault_state") ∧ dec.reason ≠ ("waiting_timeout") ∧
      dec.reason ≠ ("ev_unplugged") ∧ dec.reason ≠ ("auto_disabled")) :
    (tick cfg st inp).state.evse_step_index ≤ st.evse_step_index + 1 ∧
    st.evse_step_index ≤ (tick cfg st inp).state.evse_step_index + 1 := by
  have hidxE : (evalState cfg st inp).evse_step_index = st.evse_step_index :=
    evalState_index_no_resync cfg st inp hcur
  have hT := tick_state_eq cfg st inp
  cases h : rules_decision cfg (evalState cfg st inp) inp (deriveVals cfg st inp) with
  | none =>
    simp only [h] at hT
    rw [hT, hidxE]
    omega
  | some dec =>
    simp only [h] at hT
    rw [hT]
    have hr := hforced dec (by rw [tick_decision_eq]; exact h)
    have hOFF : (evalState cfg st inp).mode_state = ModeState.OFF →
        (evalState cfg st inp).evse_step_index = 0 :=
      fun hm => (evalState_mode_OFF cfg st inp).mp hm
    rcases rules_decision_cases cfg _ inp _ dec hOFF h with
        ⟨hreason, _, _⟩ | ⟨h0, _, hd | hd⟩ | ⟨h1, hd⟩ | ⟨h2, hd⟩ |
        ⟨hpos, hd | hd | hd | hd⟩ | ⟨hpos, h7, _, _, hd | hd⟩
    · rcases hreason with hx | hx | hx | hx
      · exact absurd hx hr.1
      · exact absurd hx hr.2.1
      · exact absurd hx hr.2.2.1
      · exact absurd hx hr.2.2.2
    all_goals subst hd
    all_goals rw [set_step_index]
    all_goals rw [hidxE] at *
    all_goals omega

/-- C3 witness: the default OFF state with benign inputs (no charger
read-back) produces no decision; the index stays 0, a change of 0 ≤ 1. -/
theorem C3_amended_witness :
    (tick defaultConfig initState c7inp).state.evse_step_index ≤
      initState.evse_step_index + 1 ∧
    initState.evse_step_index ≤
      (tick defaultConfig initState c7inp).state.evse_step_index + 1 := by
  refine C3_amended defaultConfig initState c7inp (by with_unfolding_all decide) rfl ?_
  intro dec h
  have hn : (tick defaultConfig initState c7inp).decision = none := by
    with_unfolding_all decide
  rw [hn] at h
  exact Option.noConfusion h

end Evse

namespace Evse

/-! Regression theorems reproducing the repository's own tests
(tests/test_state_machine.py) and the spec's end-to-end scenarios. -/

theorem repo_test_cold_start :
    ((tick defaultConfig testState0 (testInputs 100 6000 2000)).decision.map
      (fun d => (d.reason, d.current_command_amps))) = some (("main_start"), some 6) ∧
    (tick defaultConfig testState0 (testInputs 100 6000 2000)).state.evse_step_index = 1 ∧
    (tick defaultConfig testState0 (testInputs 100 6000 2000)).state.pending_effect_ts_s =
      some 100 := by
  refine ⟨by with_unfolding_all decide, by with_unfolding_all decide,
    by with_unfolding_all decide⟩

theorem repo_test_cooldown_blocks :
    (tick defaultConfig testState1 (testInputs 102 6000 2000)).decision = none := by
  with_unfolding_all decide

theorem repo_test_latency_blocks :
    (tick defaultConfig testState1 (testInputs 110 8000 2500)).decision = none := by
  with_unfolding_all decide

theorem repo_test_step_up_after_windows :
    ((tick defaultConfig testState1 (testInputs 130 8000 2500)).decision.map
      (fun d => (d.reason, d.current_command_amps))) = some (("main_step_up"), some 8) ∧
    (tick defaultConfig testState1 (testInputs 130 8000 2500)).state.evse_step_index = 2 := by
  refine ⟨by with_unfolding_all decide, by with_unfolding_all decide⟩

theorem repo_test_inverter_blocks_start :
    (tick defaultConfig testState0 (testInputs 200 7000 7000)).decision = none ∧
    ((tick defaultConfig testState0 (testInputs 210 7000 5000)).decision.map
      (fun d => (d.reason, d.current_command_amps))) = some (("main_start"), some 6) := by
  refine ⟨by with_unfolding_all decide, by with_unfolding_all decide⟩

theorem spec_scenario_waiting_timeout :
    ((tick defaultConfig
      { mode_state := ModeState.MAIN_READY, evse_step_index := 3, last_change_ts_s := 900,
        waiting_since_ts_s := some 1000, pending_effect_ts_s := none }
      { batt_soc_percent := some 60, batt_power_w := none, inverter_power_w := none,
        pv_power_w := none, charger_status := ("waiting"), charger_switch_on := true,
        charger_current_a := none, auto_enabled := true, now_s := 1065 }).decision.map
      (fun d => (d.reason, d.new_state.evse_step_index, d.switch_command))) =
      some (("waiting_timeout"), 0, some false) := by
  with_unfolding_all decide

theorem spec_scenario_resync :
    (detect_external_changes defaultConfig
      { mode_state := ModeState.MAIN_READY, evse_step_index := 2, last_change_ts_s := 0,
        waiting_since_ts_s := none, pending_effect_ts_s := some 0 }
      { batt_soc_percent := some 60, batt_power_w := none, inverter_power_w := none,
        pv_power_w := none, charger_status := ("charging"), charger_switch_on := true,
        charger_current_a := some 16, auto_enabled := true, now_s := 300 }) =
    { mode_state := ModeState.MAIN_READY, evse_step_index := 5, last_change_ts_s := 300,
      waiting_since_ts_s := none, pending_effect_ts_s := none } := by
  with_unfolding_all decide

theorem spec_scenario_probe_step_up :
    ((tick defaultConfig
      { mode_state := ModeState.PROBE_READY, evse_step_index := 2, last_change_ts_s := 400,
        waiting_since_ts_s := none, pending_effect_ts_s := none }
      { batt_soc_percent := some 96, batt_power_w := some (-100), inverter_power_w := some 2000,
        pv_power_w := some 2000, charger_status := ("charging"), charger_switch_on := true,
        charger_current_a := none, auto_enabled := true, now_s := 500 }).decision.map
      (fun d => (d.reason, d.new_state.evse_step_index))) = some (("probe_step_up"), 3) := by
  with_unfolding_all decide

end Evse
